import Mathlib

/-!
Shallow embedding of the `bedrock-access-gateway` composition layer:
configuration resolution (`src/api/setting.py`) and application assembly
(`src/app.py`): route-table registration, request-logging middleware,
validation-error interceptor, health endpoint, and the serverless adapter.

Environment lookup is modelled as a function `String → Option String`
(`none` = variable absent), paths as strings split into segment lists,
time as rationals, and the log stream as an explicit list of emitted
records.
-/

namespace Gateway

/-! ## `src/api/setting.py` -/

def DEFAULT_API_KEYS : String := "kiku-bedrock-key"

def API_ROUTE_PREFIX : String := "/api/v1"

def AZURE_API_ROUTE_PREFIX : String := "/openai/deployments/kiku-deployment"

/-- Python `os.environ.get(name, dflt)`: the variable's value when the name is
bound in the environment (even when bound to the empty string), the
fallback only when the name is absent. -/
def environGet (env : String → Option String) (name dflt : String) : String :=
  (env name).getD dflt

/-- Python `str.lower()` modelled character by character. -/
def strToLower (s : String) : String :=
  String.mk (s.toList.map Char.toLower)

/-- Source line `DEBUG = os.environ.get("DEBUG", "false").lower() != "false"` -/
def DEBUG (env : String → Option String) : Bool :=
  strToLower (environGet env "DEBUG" "false") != "false"

/-- Source line `AWS_REGION = os.environ.get("AWS_REGION", "us-west-2")` -/
def AWS_REGION (env : String → Option String) : String :=
  environGet env "AWS_REGION" "us-west-2"

/-- Source line `DEFAULT_MODEL = os.environ.get("DEFAULT_MODEL", "anthropic.claude-3-5-sonnet-20240620-v1:0")` -/
def DEFAULT_MODEL (env : String → Option String) : String :=
  environGet env "DEFAULT_MODEL" "anthropic.claude-3-5-sonnet-20240620-v1:0"

/-- Source line `DEFAULT_EMBEDDING_MODEL = os.environ.get("DEFAULT_EMBEDDING_MODEL", "cohere.embed-multilingual-v3")` -/
def DEFAULT_EMBEDDING_MODEL (env : String → Option String) : String :=
  environGet env "DEFAULT_EMBEDDING_MODEL" "cohere.embed-multilingual-v3"

/-! ## Route table (`src/app.py`, the `app.include_router` calls) -/

/-- The three router groups imported from `api.routers`. -/
inductive RouterGroup
  | model
  | embeddings
  | chat
deriving DecidableEq, Repr

/-- The `include_router` calls of `app.py` in source order: an empty
string stands for a call without a `prefix=` argument. -/
def registrations : List (String × RouterGroup) :=
  [("", RouterGroup.model),
   ("", RouterGroup.embeddings),
   ( API_ROUTE_PREFIX, RouterGroup.embeddings),
   ( AZURE_API_ROUTE_PREFIX, RouterGroup.embeddings),
   ( API_ROUTE_PREFIX, RouterGroup.chat),
   ( AZURE_API_ROUTE_PREFIX, RouterGroup.chat)]

/-- Modelled from the spec: the router modules `api.routers.model`,
`api.routers.embeddings` and `api.routers.chat` are not part of the
provided source slice; the spec describes an OpenAI-compatible surface
with model listing, embeddings and chat-completions endpoints, so each
group is given its OpenAI-convention relative path. -/
def routerPaths : RouterGroup → List String
  | RouterGroup.model => ["/models"]
  | RouterGroup.embeddings => ["/embeddings"]
  | RouterGroup.chat => ["/chat/completions"]

/-- Split a character list at `/`, dropping empty segments; the
accumulator carries the current segment's characters in reverse. -/
def splitPathAux : List Char → List Char → List String
  | [], acc => if acc = [] then [] else [String.mk acc.reverse]
  | c :: rest, acc =>
      if c = '/' then
        if acc = [] then splitPathAux rest []
        else String.mk acc.reverse :: splitPathAux rest []
      else splitPathAux rest (c :: acc)

/-- A URL path as its list of non-empty segments
(`"/api/v1/embeddings"` ↦ `["api", "v1", "embeddings"]`). -/
def splitPath (p : String) : List String :=
  splitPathAux p.toList []

/-- The full route table: every registration contributes the paths of its
group under its registered route prefix, and `GET /health` is declared
directly on the app. -/
def routePaths : List (List String) :=
  (registrations.map
    (fun r => (routerPaths r.2).map (fun q => splitPath (r.1 ++ q)))).flatten
  ++ [splitPath "/health"]

/-- Request dispatch: a request path matches the table exactly when its
segment list equals some registered route's segment list; otherwise the
framework answers 404. -/
def matchesRoute (req : List String) : Bool :=
  routePaths.any (fun r => r = req)

/-! ## `src/app.py`: colors and log records -/

/-! The `Colors` class of ANSI escape codes (`app.py`). -/
namespace Colors

def RESET : String := "\x1b[0m"
def RED : String := "\x1b[91m"
def GREEN : String := "\x1b[92m"
def YELLOW : String := "\x1b[93m"
def BLUE : String := "\x1b[94m"
def MAGENTA : String := "\x1b[95m"
def CYAN : String := "\x1b[96m"

end Colors

/-- Python `logging` severities. -/
inductive LogLevel
  | debug
  | info
  | warning
  | error
  | critical
deriving DecidableEq, Repr

/-- One record sent to the process log stream. -/
structure LogRecord where
  level : LogLevel
  message : String
deriving DecidableEq, Repr

/-- An inbound HTTP request as the middleware sees it: `request.method`
and `request.url.path`. -/
structure Request where
  method : String
  path : String
deriving DecidableEq, Repr

/-- What a handler hands back through the response pipeline. -/
inductive Body
  | jsonObj (fields : List (String × String))
  | text (s : String)
deriving DecidableEq, Repr

structure Response where
  statusCode : Nat
  body : Body
  headers : List (String × String)
deriving DecidableEq, Repr

/-- String `a` occurs as a contiguous substring of `b`. -/
def occursIn (a b : String) : Prop :=
  ∃ x y, b = x ++ a ++ y

/-! ## Elapsed-time formatting

`f"{process_time:.2f}"` rounds the elapsed seconds to two decimal
places; wall-clock instants are modelled as rationals. -/

/-- The elapsed value after rounding to two decimal places. -/
def round2 (q : ℚ) : ℚ :=
  ((round (100 * q) : ℤ) : ℚ) / 100

/-- Decimal rendering of `round2 q` with exactly two fraction digits,
as `"%.2f"` prints it for a non-negative value. -/
def formatFixed2 (q : ℚ) : String :=
  let n : ℤ := round (100 * q)
  toString (n / 100) ++ "." ++
    (if n.natAbs % 100 < 10 then "0" else "") ++ toString (n.natAbs % 100)

/-! ## The `log_requests` middleware

The downstream continuation `call_next` yields the response together
with whatever records the downstream code logged; the middleware
captures `t0` before delegating, `t1` after, and appends its single
line after the downstream records. -/

def log_requests (t0 t1 : ℚ) (req : Request)
    (call_next : Request → Response × List LogRecord) :
    Response × List LogRecord :=
  let r := call_next req
  let process_time := t1 - t0
  let status_color := if r.1.statusCode < 400 then Colors.GREEN else Colors.RED
  (r.1,
   r.2 ++
     [⟨LogLevel.info,
       Colors.BLUE ++ "kikuLogger" ++ Colors.RESET ++ ": " ++
       req.method ++ " " ++ req.path ++ " - Status: " ++
       status_color ++ toString r.1.statusCode ++ Colors.RESET ++
       " - took: " ++ Colors.CYAN ++ formatFixed2 process_time ++ "s" ++
       Colors.RESET⟩])

/-! ## Validation-error interceptor and exception dispatch -/

/-- An exception reaching FastAPI's exception-handler dispatch; a
`RequestValidationError` is carried as its `str(exc)` detail text. -/
inductive AppException
  | requestValidationError (detail : String)
  | other (excName : String) (detail : String)
deriving DecidableEq, Repr

/-- Handler `validation_exception_handler`: logs the failure at error severity,
then answers `PlainTextResponse(str(exc), status_code=400)`. The log
records come first in the pair: they are emitted before the response
is returned. -/
def validation_exception_handler (exc : String) : List LogRecord × Response :=
  ([⟨LogLevel.error,
     Colors.RED ++ "RequestValidationError:" ++ Colors.RESET ++ ": " ++ exc⟩],
   ⟨400, Body.text exc, [("content-type", "text/plain; charset=utf-8")]⟩)

/-- The app's exception-handler table: `app.py` installs a handler for
`RequestValidationError` only; every other exception type finds no
handler here and propagates to the framework's default behavior. -/
def exception_handler_table (e : AppException) :
    Option (List LogRecord × Response) :=
  match e with
  | AppException.requestValidationError d => some (validation_exception_handler d)
  | AppException.other _ _ => none

/-! ## Health endpoint

`async def health()` returns the literal dict `{"status": "OK"}`, which
the framework serializes with status 200. The handler is given the
request and the history of previously served requests only to state
that it depends on neither. -/

def health (_req : Request) (served : List Request) :
    (Response × List LogRecord) × List Request :=
  ((⟨200, Body.jsonObj [("status", "OK")], [("content-type", "application/json")]⟩,
    []),
   served)

/-! ## Application assembly and the two entry points -/

/-- The composed application: its middleware stack (in registration
order) and its route table. -/
structure App where
  middlewareStack : List String
  routeTable : List (String × RouterGroup)
deriving DecidableEq, Repr

/-- The module-level `app`: `add_middleware(CORSMiddleware)`, the
`@app.middleware("http")` logger, and the `include_router` calls. -/
def app : App :=
  { middlewareStack := ["CORSMiddleware", "log_requests"],
    routeTable := registrations }

/-- Adapter `Mangum(app)` holds a reference to the application it adapts. -/
structure MangumAdapter where
  wrappedApp : App
deriving DecidableEq, Repr

/-- Source line `handler = Mangum(app)`. -/
def handler : MangumAdapter := ⟨app⟩

/-- Entry point `uvicorn.run("app:app", ...)`: the import string resolves to the
same module-level `app` object. -/
def uvicornTargetApp : App := app

end Gateway

namespace Gateway

/-- An environment binding `DEFAULT_MODEL` to the empty string and
nothing else. -/
def envEmptyDefaultModel : String → Option String :=
  fun name => if name = "DEFAULT_MODEL" then some "" else none

/-- A concrete request and downstream handler for witnesses. -/
def reqGETHealth : Request := ⟨"GET", "/health"⟩

/-- A downstream continuation answering 200 and logging nothing. -/
def okNext : Request → Response × List LogRecord :=
  fun _ => (⟨200, Body.jsonObj [("status", "OK")], []⟩, [])

/-- The routes contributed by the registrations carrying the
Azure-style deployment route prefix. -/
def azureRoutePaths : List (List String) :=
  ((registrations.filter (fun r => r.1 == AZURE_API_ROUTE_PREFIX)).map
    (fun r => (routerPaths r.2).map (fun q => splitPath (r.1 ++ q)))).flatten

end Gateway

namespace Gateway

/-- C1: the embeddings router is registered under exactly the three
route-prefix families (bare root, versioned, Azure-style), the
chat-completions router under exactly the versioned and Azure-style
prefixes and not the bare root, the model-listing router exactly once
unprefixed; consequently a chat-completions path at the bare root
matches no route in the table and is answered 404. -/
theorem route_table_registration_families :
    ((registrations.filter (fun r => r.2 == RouterGroup.embeddings)).map Prod.fst
        = ["", API_ROUTE_PREFIX, AZURE_API_ROUTE_PREFIX])
      ∧ ((registrations.filter (fun r => r.2 == RouterGroup.chat)).map Prod.fst
        = [ API_ROUTE_PREFIX, AZURE_API_ROUTE_PREFIX])
      ∧ ((registrations.filter (fun r => r.2 == RouterGroup.model)).map Prod.fst
        = [""])
      ∧ (∀ p ∈ routerPaths RouterGroup.chat, matchesRoute (splitPath p) = false)
      ∧ (∀ p ∈ routerPaths RouterGroup.embeddings, matchesRoute (splitPath p) = true) := by
  refine ⟨rfl, rfl, rfl, ?_, ?_⟩ <;> decide

/-- C9: the Azure-style deployment route prefix is a fixed literal whose
deployment id is `"kiku-deployment"`, not a path parameter, so a request
whose deployment segment is any other id matches none of the
Azure-prefixed routes, whatever follows the deployment segment. -/
theorem azure_deployment_id_fixed (dep : String)
    (hdep : dep ≠ "kiku-deployment") (rest : List String) :
    AZURE_API_ROUTE_PREFIX = "/openai/deployments/kiku-deployment"
      ∧ splitPath AZURE_API_ROUTE_PREFIX = ["openai", "deployments", "kiku-deployment"]
      ∧ ∀ route ∈ azureRoutePaths,
          ("openai" :: "deployments" :: dep :: rest) ≠ route := by
  refine ⟨rfl, rfl, ?_⟩
  have hconc : azureRoutePaths
      = [["openai", "deployments", "kiku-deployment", "embeddings"],
         ["openai", "deployments", "kiku-deployment", "chat", "completions"]] := rfl
  intro route hr
  rw [hconc] at hr
  simp only [List.mem_cons, List.not_mem_nil, or_false] at hr
  rcases hr with hr | hr
  all_goals
    subst hr
    intro hEq
    simp only [List.cons.injEq] at hEq
    exact hdep hEq.2.2.1

/-- Witness for C9 at the concrete deployment id `"my-deployment"`. -/
theorem azure_deployment_id_fixed_witness :
    ("my-deployment" ≠ "kiku-deployment")
      ∧ ∀ route ∈ azureRoutePaths,
          ("openai" :: "deployments" :: "my-deployment" :: ["embeddings"]) ≠ route :=
  ⟨by decide,
   (azure_deployment_id_fixed "my-deployment" (by decide) ["embeddings"]).2.2⟩

/-- C4: the health handler is side-effect-free — it logs nothing and
leaves the request history unchanged — and for every request and every
prior history it answers status 200 with exactly the fixed payload
`{"status": "OK"}`. -/
theorem health_fixed_response (req : Request) (served : List Request) :
    (health req served).1.1.statusCode = 200
      ∧ (health req served).1.1.body = Body.jsonObj [("status", "OK")]
      ∧ (health req served).1.2 = []
      ∧ (health req served).2 = served
      ∧ ∀ req' served', (health req served).1.1 = (health req' served').1.1 :=
  ⟨rfl, rfl, rfl, rfl, fun _ _ => rfl⟩

/-- C7: the logging middleware passes the downstream handler's response
through unchanged — the response object after the middleware equals the
one `call_next` produced, so status code, body and headers all agree. -/
theorem log_requests_response_unchanged (t0 t1 : ℚ) (req : Request)
    (call_next : Request → Response × List LogRecord) :
    (log_requests t0 t1 req call_next).1 = (call_next req).1
      ∧ (log_requests t0 t1 req call_next).1.statusCode = (call_next req).1.statusCode
      ∧ (log_requests t0 t1 req call_next).1.body = (call_next req).1.body
      ∧ (log_requests t0 t1 req call_next).1.headers = (call_next req).1.headers :=
  ⟨rfl, rfl, rfl, rfl⟩

/-- C8: the serverless handler wraps the same composed application the
standalone server entry point serves: a single route table, and each
middleware registered exactly once on that shared instance. -/
theorem serverless_and_server_share_app :
    handler.wrappedApp = app
      ∧ uvicornTargetApp = app
      ∧ handler.wrappedApp.routeTable = uvicornTargetApp.routeTable
      ∧ handler.wrappedApp.middlewareStack = uvicornTargetApp.middlewareStack
      ∧ app.middlewareStack.count "log_requests" = 1
      ∧ app.middlewareStack.count "CORSMiddleware" = 1 := by
  refine ⟨rfl, rfl, rfl, rfl, ?_, ?_⟩ <;> decide

/-- C2: on a validation failure the interceptor answers status exactly
400 with the plain-text stringification of the failure detail as the
body (no JSON envelope), after emitting exactly one record at error
severity that carries the detail; exceptions of any other type find no
handler in this interceptor's table. -/
theorem validation_interceptor_behavior (exc : String) :
    (validation_exception_handler exc).2.statusCode = 400
      ∧ (validation_exception_handler exc).2.body = Body.text exc
      ∧ (validation_exception_handler exc).2.headers
          = [("content-type", "text/plain; charset=utf-8")]
      ∧ (∃ rec : LogRecord,
          (validation_exception_handler exc).1 = [rec]
            ∧ rec.level = LogLevel.error
            ∧ occursIn exc rec.message)
      ∧ exception_handler_table (AppException.requestValidationError exc)
          = some (validation_exception_handler exc)
      ∧ ∀ n d, exception_handler_table (AppException.other n d) = none := by
  refine ⟨rfl, rfl, rfl, ⟨_, rfl, rfl, ?_⟩, rfl, fun _ _ => rfl⟩
  exact ⟨Colors.RED ++ "RequestValidationError:" ++ Colors.RESET ++ ": ", "",
    by simp [String.append_assoc]⟩

/-- Counterexample to C3 as stated: with `DEFAULT_MODEL` set to the
empty string, the resolved value is the empty string, not the
documented fallback — `os.environ.get` substitutes the default only
when the variable is absent, never when it is empty. -/
theorem default_model_empty_not_fallback :
    envEmptyDefaultModel "DEFAULT_MODEL" = some ""
      ∧ DEFAULT_MODEL envEmptyDefaultModel
          ≠ "anthropic.claude-3-5-sonnet-20240620-v1:0" := by
  exact ⟨rfl, by decide⟩

/-- C3 (amended): each configuration variable resolves to the
environment's value verbatim whenever the variable is set — including
to the empty string — and to the documented fixed default exactly when
the variable is absent; for `DEBUG` the raw string resolved this way is
then lowercased and compared against `"false"`. -/
theorem config_env_verbatim_or_default (env : String → Option String) (v : String) :
    (env "DEFAULT_MODEL" = some v → DEFAULT_MODEL env = v)
      ∧ (env "DEFAULT_MODEL" = none
          → DEFAULT_MODEL env = "anthropic.claude-3-5-sonnet-20240620-v1:0")
      ∧ (env "AWS_REGION" = some v → AWS_REGION env = v)
      ∧ (env "AWS_REGION" = none → AWS_REGION env = "us-west-2")
      ∧ (env "DEFAULT_EMBEDDING_MODEL" = some v → DEFAULT_EMBEDDING_MODEL env = v)
      ∧ (env "DEFAULT_EMBEDDING_MODEL" = none
          → DEFAULT_EMBEDDING_MODEL env = "cohere.embed-multilingual-v3")
      ∧ (env "DEBUG" = some v → DEBUG env = (strToLower v != "false"))
      ∧ (env "DEBUG" = none → DEBUG env = false) := by
  refine ⟨?_, ?_, ?_, ?_, ?_, ?_, ?_, ?_⟩ <;>
    intro h <;>
    simp [DEFAULT_MODEL, AWS_REGION, DEFAULT_EMBEDDING_MODEL, DEBUG, environGet, h] <;>
    decide

/-- Witness for amended C3: both branches exercised on a concrete
environment that sets `DEFAULT_MODEL` and leaves `AWS_REGION` unset. -/
theorem config_env_verbatim_or_default_witness :
    DEFAULT_MODEL (fun name => if name = "DEFAULT_MODEL" then some "my-model" else none)
        = "my-model"
      ∧ AWS_REGION (fun name => if name = "DEFAULT_MODEL" then some "my-model" else none)
        = "us-west-2" :=
  ⟨(config_env_verbatim_or_default
      (fun name => if name = "DEFAULT_MODEL" then some "my-model" else none)
      "my-model").1 rfl,
   (config_env_verbatim_or_default
      (fun name => if name = "DEFAULT_MODEL" then some "my-model" else none)
      "my-model").2.2.2.1 rfl⟩

/-- C6: the resolved debug flag is true exactly when the lowercased
resolved string differs from the literal `"false"`; when `DEBUG` is
unset the flag is false, and any set value — malformed or not — is
accepted and compared, never rejected. -/
theorem debug_flag_resolution (env : String → Option String) :
    (DEBUG env = true ↔ strToLower (environGet env "DEBUG" "false") ≠ "false")
      ∧ (env "DEBUG" = none → DEBUG env = false)
      ∧ (∀ v, env "DEBUG" = some v → DEBUG env = (strToLower v != "false")) := by
  refine ⟨?_, ?_, ?_⟩
  · simp [DEBUG]
  · intro h; simp [DEBUG, environGet, h]; decide
  · intro v h; simp [DEBUG, environGet, h]

/-- Witness for C6 on concrete environments: unset gives false,
`"False"` gives false, `"0"` (malformed) gives true. -/
theorem debug_flag_resolution_witness :
    DEBUG (fun _ => none) = false
      ∧ DEBUG (fun _ => some "False") = false
      ∧ DEBUG (fun _ => some "0") = true :=
  ⟨(debug_flag_resolution (fun _ => none)).2.1 rfl,
   by
    have h := (debug_flag_resolution (fun _ => some "False")).2.2 "False" rfl
    rw [h]; decide,
   by
    have h := (debug_flag_resolution (fun _ => some "0")).2.2 "0" rfl
    rw [h]; decide⟩

/-- Helper: exhibit an occurrence from an explicit decomposition. -/
theorem occursIn_intro (x a y b : String) (hb : b = x ++ a ++ y) :
    occursIn a b :=
  ⟨x, y, hb⟩

/-- Helper: a rounded non-negative duration stays non-negative. -/
theorem round2_nonneg (q : ℚ) (hq : 0 ≤ q) : 0 ≤ round2 q := by
  unfold round2
  refine div_nonneg ?_ (by norm_num)
  have h : (0:ℤ) ≤ round (100 * q) := by
    rw [round_eq]
    exact Int.floor_nonneg.mpr (by linarith)
  exact_mod_cast h

/-- C5: provided the clock did not run backwards between the two
samples, the middleware emits exactly one record, appended strictly
after the downstream handler's own output, whose message carries the
request method, the request path, the downstream status code and the
elapsed time rounded to two decimal places, and that rounded elapsed
value is non-negative. -/
theorem log_requests_single_record (t0 t1 : ℚ) (h : t0 ≤ t1) (req : Request)
    (call_next : Request → Response × List LogRecord) :
    ∃ msg : String,
      (log_requests t0 t1 req call_next).2
          = (call_next req).2 ++ [⟨LogLevel.info, msg⟩]
        ∧ occursIn req.method msg
        ∧ occursIn req.path msg
        ∧ occursIn (toString (call_next req).1.statusCode) msg
        ∧ occursIn (formatFixed2 (t1 - t0)) msg
        ∧ 0 ≤ round2 (t1 - t0) := by
  refine ⟨_, rfl, ?_, ?_, ?_, ?_, round2_nonneg _ (by linarith)⟩
  · exact occursIn_intro
      (Colors.BLUE ++ "kikuLogger" ++ Colors.RESET ++ ": ")
      req.method
      (" " ++ req.path ++ " - Status: " ++
        (if (call_next req).1.statusCode < 400 then Colors.GREEN else Colors.RED) ++
        toString (call_next req).1.statusCode ++ Colors.RESET ++
        " - took: " ++ Colors.CYAN ++ formatFixed2 (t1 - t0) ++ "s" ++ Colors.RESET)
      _ (by simp [String.append_assoc])
  · exact occursIn_intro
      (Colors.BLUE ++ "kikuLogger" ++ Colors.RESET ++ ": " ++ req.method ++ " ")
      req.path
      (" - Status: " ++
        (if (call_next req).1.statusCode < 400 then Colors.GREEN else Colors.RED) ++
        toString (call_next req).1.statusCode ++ Colors.RESET ++
        " - took: " ++ Colors.CYAN ++ formatFixed2 (t1 - t0) ++ "s" ++ Colors.RESET)
      _ (by simp [String.append_assoc])
  · exact occursIn_intro
      (Colors.BLUE ++ "kikuLogger" ++ Colors.RESET ++ ": " ++ req.method ++ " " ++
        req.path ++ " - Status: " ++
        (if (call_next req).1.statusCode < 400 then Colors.GREEN else Colors.RED))
      (toString (call_next req).1.statusCode)
      (Colors.RESET ++ " - took: " ++ Colors.CYAN ++ formatFixed2 (t1 - t0) ++ "s" ++
        Colors.RESET)
      _ (by simp [String.append_assoc])
  · exact occursIn_intro
      (Colors.BLUE ++ "kikuLogger" ++ Colors.RESET ++ ": " ++ req.method ++ " " ++
        req.path ++ " - Status: " ++
        (if (call_next req).1.statusCode < 400 then Colors.GREEN else Colors.RED) ++
        toString (call_next req).1.statusCode ++ Colors.RESET ++
        " - took: " ++ Colors.CYAN)
      (formatFixed2 (t1 - t0))
      ("s" ++ Colors.RESET)
      _ (by simp [String.append_assoc])

/-- Witness for C5 at clock samples 0 and 1 on a concrete request. -/
theorem log_requests_single_record_witness :
    ∃ msg : String,
      (log_requests 0 1 reqGETHealth okNext).2
          = (okNext reqGETHealth).2 ++ [⟨LogLevel.info, msg⟩]
        ∧ occursIn reqGETHealth.method msg
        ∧ occursIn reqGETHealth.path msg
        ∧ occursIn (toString (okNext reqGETHealth).1.statusCode) msg
        ∧ occursIn (formatFixed2 ((1:ℚ) - 0)) msg
        ∧ 0 ≤ round2 ((1:ℚ) - 0) :=
  log_requests_single_record 0 1 zero_le_one reqGETHealth okNext

/-- C10: the middleware's record always carries INFO severity whatever
the status code; its message is colored free text — it embeds ANSI
escape sequences — and the status code is rendered behind the green
escape when the status is below 400 and behind the red escape
otherwise. -/
theorem log_requests_info_colored (t0 t1 : ℚ) (req : Request)
    (call_next : Request → Response × List LogRecord) :
    ∃ rec : LogRecord,
      (log_requests t0 t1 req call_next).2 = (call_next req).2 ++ [rec]
        ∧ rec.level = LogLevel.info
        ∧ occursIn (Colors.BLUE ++ "kikuLogger" ++ Colors.RESET) rec.message
        ∧ occursIn
            ((if (call_next req).1.statusCode < 400 then Colors.GREEN else Colors.RED)
              ++ toString (call_next req).1.statusCode ++ Colors.RESET)
            rec.message := by
  refine ⟨_, rfl, rfl, ?_, ?_⟩
  · exact occursIn_intro
      ""
      (Colors.BLUE ++ "kikuLogger" ++ Colors.RESET)
      (": " ++ req.method ++ " " ++ req.path ++ " - Status: " ++
        (if (call_next req).1.statusCode < 400 then Colors.GREEN else Colors.RED) ++
        toString (call_next req).1.statusCode ++ Colors.RESET ++
        " - took: " ++ Colors.CYAN ++ formatFixed2 (t1 - t0) ++ "s" ++ Colors.RESET)
      _ (by simp [String.append_assoc])
  · exact occursIn_intro
      (Colors.BLUE ++ "kikuLogger" ++ Colors.RESET ++ ": " ++ req.method ++ " " ++
        req.path ++ " - Status: ")
      ((if (call_next req).1.statusCode < 400 then Colors.GREEN else Colors.RED)
        ++ toString (call_next req).1.statusCode ++ Colors.RESET)
      (" - took: " ++ Colors.CYAN ++ formatFixed2 (t1 - t0) ++ "s" ++ Colors.RESET)
      _ (by simp [String.append_assoc])

end Gateway

/-! ## Sanity examples (concrete evaluations of the embedding) -/

example : Gateway.splitPath "/api/v1/embeddings" = ["api", "v1", "embeddings"] := by decide

example : Gateway.matchesRoute ["embeddings"] = true := by decide

example : Gateway.matchesRoute ["chat", "completions"] = false := by decide

example : Gateway.matchesRoute ["api", "v1", "chat", "completions"] = true := by decide
